/-
Verification of the news-agg ingestion/deduplication pipeline.

Shallow embedding of the Python sources:
  * collector.py : text normalization, fingerprinting (SHA-256), topic
    matching, duplicate gate, fallback summaries, the per-entry pipeline
    of process_feed, and save_article / is_new_article over an explicit
    store state (a list of rows, mirroring the SQLite table whose only
    uniqueness constraint is on `link`).
  * app.py : normalize_topic_label, normalize_summary_for_display,
    fetch_rows / fetch_one (their try/except bodies modelled as an
    Except-valued backend outcome), and serialize_story.

Conventions: Python `str` is `String`; nullable values are `Option`;
machine-independent text processing is re-implemented character by
character following the regexes in the source; Python's `str.lower`,
`str.isupper`, `str.title`, and the `\w` class are modelled on their
ASCII behaviour (every input appearing in a theorem below is ASCII).
Network and database effects are passed in as explicit parameters
(`fetchText`, `xai`, the `Except` outcome of a query), never performed.
-/
import Mathlib

namespace NewsAgg

/-! Section: Python string primitives -/

/-- The characters matched by Python's `\s` class (and stripped by
`str.strip`) that can occur in feed text; the ASCII whitespace set plus
NBSP and the Unicode space separators Python includes. -/
def isPySpace (c : Char) : Bool :=
  c = ' ' || c = '\t' || c = '\n' || c = '\r' || c.toNat = 0x0b || c.toNat = 0x0c ||
  c.toNat = 0x1c || c.toNat = 0x1d || c.toNat = 0x1e || c.toNat = 0x1f || c.toNat = 0x85 ||
  c.toNat = 0xa0 || c.toNat = 0x1680 ||
  (0x2000 ≤ c.toNat && c.toNat ≤ 0x200a) ||
  c.toNat = 0x2028 || c.toNat = 0x2029 || c.toNat = 0x202f || c.toNat = 0x205f ||
  c.toNat = 0x3000

/-- Character-wise map (kernel-reducible form of `String.map`). -/
def charMap (f : Char → Char) (s : String) : String := ⟨s.data.map f⟩

/-- Python `str.lower`, on the ASCII letters (all titles, topics and
summaries used in the claims are ASCII). -/
def pyLower (s : String) : String := charMap Char.toLower s

/-- Substring test: Python `needle in hay` is `occursIn needle hay`. -/
def leadsWith : List Char → List Char → Bool
  | [], _ => true
  | _ :: _, [] => false
  | a :: as_, b :: bs => a = b && leadsWith as_ bs

def occursInAux (n : List Char) : List Char → Bool
  | [] => n.isEmpty
  | b :: bs => leadsWith n (b :: bs) || occursInAux n bs

def occursIn (needle hay : String) : Bool := occursInAux needle.data hay.data

/-- Replace every (leftmost, non-overlapping) occurrence of `pat`:
Python `str.replace` and `re.sub` with a literal pattern.  Fuel is the
input length; each step consumes at least one character. -/
def replaceAllAux (pat rep : List Char) : Nat → List Char → List Char
  | 0, cs => cs
  | _ + 1, [] => []
  | fuel + 1, c :: rest =>
    if leadsWith pat (c :: rest) then
      rep ++ replaceAllAux pat rep fuel ((c :: rest).drop pat.length)
    else c :: replaceAllAux pat rep fuel rest

def pyReplace (s pat rep : String) : String :=
  if pat = "" then s else ⟨replaceAllAux pat.data rep.data s.data.length s.data⟩

/-- Python `str.strip()`: drop whitespace from both ends. -/
def pyStrip (s : String) : String :=
  ⟨((s.data.dropWhile isPySpace).reverse.dropWhile isPySpace).reverse⟩

/-- The zero-width characters removed by `normalize_for_fingerprint`
(the class `[\u200b\u200c\u200d\uFEFF]` in collector.py). -/
def isZeroWidth (c : Char) : Bool :=
  c.toNat = 0x200b || c.toNat = 0x200c || c.toNat = 0x200d || c.toNat = 0xfeff

/-- The class `[\xa0\u200b\u200c\u200d\uFEFF]` replaced by a space in
`clean_text`. -/
def junkToSpace (s : String) : String :=
  charMap (fun c => if c.toNat = 0xa0 || isZeroWidth c then ' ' else c) s

/-- One maximal whitespace run becomes a single space (`re.sub(r"\s+", " ", t)`).
The flag records whether the previous character was part of a run. -/
def collapseWsAux : Bool → List Char → List Char
  | _, [] => []
  | prev, c :: rest =>
    if isPySpace c then
      if prev then collapseWsAux true rest
      else ' ' :: collapseWsAux true rest
    else c :: collapseWsAux false rest

def collapseWs (s : String) : String := ⟨collapseWsAux false s.data⟩

/-- Split a character list at its first `'>'`: returns the characters
before it and the characters after it. -/
def splitAtGt : List Char → Option (List Char × List Char)
  | [] => none
  | c :: rest =>
    if c = '>' then some ([], rest)
    else
      match splitAtGt rest with
      | some (b, a) => some (c :: b, a)
      | none => none

/-- Tag removal, `re.sub` of the class `<[^>]+>` by `""`: at each `'<'`, if a `'>'` follows with
at least one character in between, the whole bracketed run is removed;
otherwise the `'<'` is kept and scanning continues.  Fuel is the input
length, which bounds the recursion. -/
def stripTagsAux : Nat → List Char → List Char
  | 0, cs => cs
  | _ + 1, [] => []
  | fuel + 1, c :: rest =>
    if c = '<' then
      match splitAtGt rest with
      | some (before, after) =>
        if before.isEmpty then c :: stripTagsAux fuel rest
        else stripTagsAux fuel after
      | none => c :: stripTagsAux fuel rest
    else c :: stripTagsAux fuel rest

def stripTags (s : String) : String := ⟨stripTagsAux s.data.length s.data⟩

/-- Python's truthiness fallback `a or b` on optional strings:
`None` and `""` fall through. -/
def pyOr2 (a b : Option String) : Option String :=
  match a with
  | some s => if s = "" then b else some s
  | none => b

/-- Characters kept by `re.sub(r"[^\w\s]", "", text)`: word characters
(Python `\w`, ASCII model) and whitespace. -/
def pyIsWordChar (c : Char) : Bool := c.isAlpha || c.isDigit || c = '_'

/-- Python `str.isupper()` (ASCII model): at least one cased character
and no lowercase character. -/
def pyIsUpper (s : String) : Bool :=
  s.data.any Char.isAlpha && s.data.all (fun c => !c.isLower)

/-- Python `str.title()` (ASCII model): a letter is uppercased when the
previous character is not a letter, lowercased otherwise. -/
def pyTitleAux : Bool → List Char → List Char
  | _, [] => []
  | prevAlpha, c :: rest =>
    if c.isAlpha then
      (if prevAlpha then c.toLower else c.toUpper) :: pyTitleAux true rest
    else c :: pyTitleAux false rest

def pyTitle (s : String) : String := ⟨pyTitleAux false s.data⟩

/-- First `n` characters of a string (Python slice `s[:n]`). -/
def strTake (n : Nat) (s : String) : String := ⟨s.data.take n⟩

/-! Section: SHA-256, the digest used by `sha256_hex` in collector.py -/

def w32 : Nat := 4294967296

def rotr (n x : Nat) : Nat := ((x >>> n) ||| (x <<< (32 - n))) % w32

def shaCh (x y z : Nat) : Nat := (x &&& y) ^^^ ((x ^^^ 0xffffffff) &&& z)

def shaMaj (x y z : Nat) : Nat := (x &&& y) ^^^ (x &&& z) ^^^ (y &&& z)

def bigSigma0 (x : Nat) : Nat := rotr 2 x ^^^ rotr 13 x ^^^ rotr 22 x

def bigSigma1 (x : Nat) : Nat := rotr 6 x ^^^ rotr 11 x ^^^ rotr 25 x

def smallSigma0 (x : Nat) : Nat := rotr 7 x ^^^ rotr 18 x ^^^ (x >>> 3)

def smallSigma1 (x : Nat) : Nat := rotr 17 x ^^^ rotr 19 x ^^^ (x >>> 10)

/-- Round constants of SHA-256 (the first 32 fractional bits of the
cube roots of the first 64 primes), written in decimal. -/
def shaK : List Nat :=
  [1116352408, 1899447441, 3049323471, 3921009573, 961987163,
   1508970993, 2453635748, 2870763221, 3624381080, 310598401,
   607225278, 1426881987, 1925078388, 2162078206, 2614888103,
   3248222580, 3835390401, 4022224774, 264347078, 604807628,
   770255983, 1249150122, 1555081692, 1996064986, 2554220882,
   2821834349, 2952996808, 3210313671, 3336571891, 3584528711,
   113926993, 338241895, 666307205, 773529912, 1294757372,
   1396182291, 1695183700, 1986661051, 2177026350, 2456956037,
   2730485921, 2820302411, 3259730800, 3345764771, 3516065817,
   3600352804, 4094571909, 275423344, 430227734, 506948616,
   659060556, 883997877, 958139571, 1322822218, 1537002063,
   1747873779, 1955562222, 2024104815, 2227730452, 2361852424,
   2428436474, 2756734187, 3204031479, 3329325298]

/-- Initial SHA-256 state (fractional bits of the square roots of the
first 8 primes), written in decimal. -/
def shaH0 : List Nat :=
  [1779033703, 3144134277, 1013904242, 2773480762,
   1359893119, 2600822924, 528734635, 1541459225]

/-- UTF-8 bytes of one character (Python `str.encode("utf-8")`). -/
def utf8Bytes (c : Char) : List Nat :=
  let n := c.toNat
  if n < 0x80 then [n]
  else if n < 0x800 then [0xc0 + n / 64, 0x80 + n % 64]
  else if n < 0x10000 then [0xe0 + n / 4096, 0x80 + (n / 64) % 64, 0x80 + n % 64]
  else [0xf0 + n / 262144, 0x80 + (n / 4096) % 64, 0x80 + (n / 64) % 64, 0x80 + n % 64]

def strBytes (s : String) : List Nat := (s.data.map utf8Bytes).flatten

/-- Big-endian 8-byte encoding of the bit length. -/
def be64 (n : Nat) : List Nat :=
  [(n >>> 56) % 256, (n >>> 48) % 256, (n >>> 40) % 256, (n >>> 32) % 256,
   (n >>> 24) % 256, (n >>> 16) % 256, (n >>> 8) % 256, n % 256]

/-- SHA-256 padding: append 0x80, zero-pad to 56 mod 64, append the
64-bit big-endian message bit length. -/
def shaPad (msg : List Nat) : List Nat :=
  let l := msg.length
  let padLen := (64 - (l + 9) % 64) % 64
  msg ++ 0x80 :: List.replicate padLen 0 ++ be64 (8 * l)

/-- Group bytes into big-endian 32-bit words. -/
def toWords : List Nat → List Nat
  | b1 :: b2 :: b3 :: b4 :: rest =>
    (b1 * 16777216 + b2 * 65536 + b3 * 256 + b4) :: toWords rest
  | _ => []

/-- One message-schedule extension step; `rws` holds the words produced
so far, newest first. -/
def schedStep (rws : List Nat) : Nat :=
  (smallSigma1 (rws.getD 1 0) + rws.getD 6 0 + smallSigma0 (rws.getD 14 0) + rws.getD 15 0) % w32

def buildSched : Nat → List Nat → List Nat
  | 0, rws => rws
  | n + 1, rws => buildSched n (schedStep rws :: rws)

/-- Full 64-word message schedule from the 16 words of one block. -/
def shaSchedule (ws : List Nat) : List Nat := (buildSched 48 ws.reverse).reverse

/-- One compression round on the state `[a,b,c,d,e,f,g,h]`. -/
def compressRound (st : List Nat) (wk : Nat × Nat) : List Nat :=
  match st with
  | [a, b, c, d, e, f, g, h] =>
    let t1 := (h + bigSigma1 e + shaCh e f g + wk.2 + wk.1) % w32
    let t2 := (bigSigma0 a + shaMaj a b c) % w32
    [(t1 + t2) % w32, a, b, c, (d + t1) % w32, e, f, g]
  | _ => st

def processBlock (h : List Nat) (block : List Nat) : List Nat :=
  let ws := shaSchedule (toWords block)
  let st := (ws.zip shaK).foldl compressRound h
  (h.zip st).map (fun p => (p.1 + p.2) % w32)

def chunks64Aux : Nat → List Nat → List (List Nat)
  | 0, _ => []
  | _ + 1, [] => []
  | fuel + 1, l => l.take 64 :: chunks64Aux fuel (l.drop 64)

def chunks64 (l : List Nat) : List (List Nat) := chunks64Aux l.length l

def hexDigit (n : Nat) : Char :=
  if n < 10 then Char.ofNat (48 + n) else Char.ofNat (87 + n)

/-- Eight lowercase hex digits of a 32-bit word. -/
def wordHex (w : Nat) : List Char :=
  [hexDigit ((w >>> 28) % 16), hexDigit ((w >>> 24) % 16),
   hexDigit ((w >>> 20) % 16), hexDigit ((w >>> 16) % 16),
   hexDigit ((w >>> 12) % 16), hexDigit ((w >>> 8) % 16),
   hexDigit ((w >>> 4) % 16), hexDigit (w % 16)]

/-- Hex digest `hashlib.sha256(s.encode("utf-8")).hexdigest()` (collector.py `sha256_hex`). -/
def sha256_hex (s : String) : String :=
  let digest := (chunks64 (shaPad (strBytes s))).foldl processBlock shaH0
  ⟨(digest.map wordHex).flatten⟩

/-! Section: collector.py normalization, fingerprint, topics -/

/-- Model of `normalize_for_fingerprint`: strip, lowercase, remove zero-width
junk, collapse whitespace runs to single spaces. -/
def normalize_for_fingerprint (text : String) : String :=
  let t := pyLower (pyStrip text)
  let t := ⟨t.data.filter (fun c => !isZeroWidth c)⟩
  collapseWs t

/-- Model of `make_fingerprint(title, topic)`: SHA-256 of the normalized title and
topic joined by `"|"`. -/
def make_fingerprint (title topic : String) : String :=
  sha256_hex (normalize_for_fingerprint title ++ "|" ++ normalize_for_fingerprint topic)

/-- Model of `clean_text`: strip HTML tags, decode the common entities, replace
NBSP/zero-width junk by spaces, collapse whitespace, trim. -/
def clean_text (text : String) : String :=
  if text = "" then ""
  else
    let t := stripTags text
    let t := pyReplace t "&nbsp;" " "
    let t := pyReplace t "&amp;" "&"
    let t := pyReplace t "&lt;" "<"
    let t := pyReplace t "&gt;" ">"
    let t := pyReplace t "&quot;" "\""
    let t := junkToSpace t
    pyStrip (collapseWs t)

/-- Model of `normalize_text`: `clean_text`, lowercase, drop punctuation
(characters that are neither word characters nor whitespace). -/
def normalize_text (text : String) : String :=
  let t := clean_text text
  let t := pyLower t
  ⟨t.data.filter (fun c => pyIsWordChar c || isPySpace c)⟩

/-- The fixed topic vocabulary (collector.py `TOPICS`), in source order. -/
def TOPICS : List String :=
  ["election", "trump", "bitcoin", "russia", "putin",
   "israel", "saudi", "tulsi", "intelligence community", "fbi", "executive order",
   "china", "dni", "maduro",
   "lawsuit", "injunction", "court", "voter", "rico", "conspiracy", "corruption",
   "election fraud", "conspiracy theory", "qanon", "ufo", "nuclear", "maha",
   "netanyahu", "erdogan", "lavrov", "iran", "board of peace", "congo", "sahel"]

/-- Topics for which the collector requests xAI summaries. -/
def AI_SUMMARY_TOPICS : List String :=
  ["election", "trump", "russia", "china", "israel", "iran", "bitcoin", "nuclear"]

/-- The per-topic test inside `process_feed`'s matching loop:
`t in norm_title or t in norm_desc` with `t = topic.lower()`. -/
def topicHits (normTitle normDesc topic : String) : Bool :=
  let t := pyLower topic
  occursIn t normTitle || occursIn t normDesc

/-- The matching loop of `process_feed`: first topic of `TOPICS` (in
order) that occurs in the normalized title or description. -/
def matchTopicKey (normTitle normDesc : String) : Option String :=
  TOPICS.find? (topicHits normTitle normDesc)

/-- The first element of `re.split` on the pattern "whitespace run
preceded by `.`, `!` or `?`" (used by `fallback_summary`): the prefix up
to and including the first sentence-ending punctuation that is followed
by whitespace. -/
def firstSplitAux : List Char → List Char
  | [] => []
  | [c] => [c]
  | c :: d :: rest =>
    if (c = '.' || c = '!' || c = '?') && isPySpace d then [c]
    else c :: firstSplitAux (d :: rest)

def firstSplitPart (s : String) : String := ⟨firstSplitAux s.data⟩

/-- Model of `fallback_summary(title, desc, topic)`: one clipped sentence of the
cleaned description when it is long enough, otherwise a fixed note about
the thin snippet; always tagged with the topic. -/
def fallback_summary (title desc topic : String) : String :=
  let title_clean := clean_text title
  let desc_clean := clean_text desc
  if 80 ≤ desc_clean.length then
    let sentence := pyStrip (strTake 220 (firstSplitPart desc_clean))
    sentence ++ "\n\nKey: Topic=" ++ topic
  else
    "This headline matches \x27" ++ topic ++ "\x27, but the feed snippet is thin.\nHeadline: "
      ++ title_clean ++ "\nKey: Topic=" ++ topic

/-! Section: app.py display normalization -/

/-- The special-cased display labels (app.py `CANON_TOPIC`). -/
def CANON_TOPIC : List (String × String) :=
  [("fbi", "FBI"), ("ufo", "UFO"), ("qanon", "QAnon"), ("rico", "RICO"),
   ("executive order", "Executive Order"), ("conspiracy theory", "Conspiracy Theory"),
   ("board of peace", "Board of Peace"), ("sahel", "Sahel"), ("congo", "Congo"),
   ("maha", "MAHA"), ("dni", "DNI")]

/-- Model of `normalize_topic_label`: canonical table lookup, short-all-caps
passthrough, else title case; empty for blank input. -/
def normalize_topic_label (topic : String) : String :=
  let t := pyStrip topic
  if t = "" then ""
  else
    let key := pyLower t
    match (CANON_TOPIC.find? (fun p => p.1 = key)).map Prod.snd with
    | some v => v
    | none => if pyIsUpper t && t.length ≤ 8 then t else pyTitle t

/-- Recognize the tail of a case-insensitive `<br...>` tag just after its
`'<'`: `b`/`B`, `r`/`R`, optional whitespace, optional `/`, optional
whitespace, `>`; returns the remaining characters on success.  This is
the deterministic reading of the regex `(?i)<br\s*/?\s*>`. -/
def brTagTail : List Char → Option (List Char)
  | b :: r :: rest =>
    if (b = 'b' || b = 'B') && (r = 'r' || r = 'R') then
      let r3 := rest.dropWhile isPySpace
      let r4 := match r3 with
        | '/' :: rr => rr.dropWhile isPySpace
        | _ => r3
      match r4 with
      | '>' :: after => some after
      | _ => none
    else none
  | _ => none

/-- Substitute every `<br>` variant by a newline
(`re.sub(r"(?i)<br\s*/?\s*>", "\n", t)`); fuel bounds the recursion. -/
def brSubAux : Nat → List Char → List Char
  | 0, cs => cs
  | _ + 1, [] => []
  | fuel + 1, c :: rest =>
    if c = '<' then
      match brTagTail rest with
      | some after => '\n' :: brSubAux fuel after
      | none => c :: brSubAux fuel rest
    else c :: brSubAux fuel rest

def brSubst (s : String) : String := ⟨brSubAux s.data.length s.data⟩

/-- Model of `normalize_summary_for_display`: unescape the `&lt;br&gt;` forms,
replace any `<br>` variant by a newline, normalize line endings, strip. -/
def normalize_summary_for_display (text : String) : String :=
  if text = "" then ""
  else
    let t := pyReplace (pyReplace (pyReplace text "&lt;br&gt;" "\n") "&lt;br/&gt;" "\n") "&lt;br /&gt;" "\n"
    let t := brSubst t
    let t := pyReplace (pyReplace t "\r\n" "\n") "\r" "\n"
    pyStrip t

/-! Section: collector.py store and pipeline

The store is the `articles` table as a list of rows in insertion order.
In the schema (both engines) the only uniqueness constraint is on
`link` (`link TEXT UNIQUE`, `ON CONFLICT (link) DO NOTHING` /
`INSERT OR IGNORE`); `fingerprint` is guarded by `is_new_article`. -/

structure Article where
  title : String
  link : String
  description : String
  pubDate : String
  topic : String
  summaryText : Option String
  addedAt : String
  fingerprint : String
deriving Repr, DecidableEq

/-- Model of `is_new_article(link, fingerprint)`: false when a stored row already
has this link, else false when one has this fingerprint, else true. -/
def is_new_article (link fingerprint : String) (store : List Article) : Bool :=
  if store.any (fun a => a.link == link) then false
  else !(store.any (fun a => a.fingerprint == fingerprint))

/-- Model of `save_article(...)`: insert, ignoring the insert when the `link`
uniqueness constraint is violated.  `addedAt` is the current time
rendered by the caller of the model. -/
def save_article (title link desc pubDate topic : String) (summaryText : Option String)
    (fingerprint addedAt : String) (store : List Article) : List Article :=
  if store.any (fun a => a.link == link) then store
  else store ++ [⟨title, link, desc, pubDate, topic, summaryText, addedAt, fingerprint⟩]

/-- One parsed feed entry (`feedparser` dict): all fields optional. -/
structure Entry where
  title : Option String
  link : Option String
  description : Option String
  summaryField : Option String
  published : Option String
  updated : Option String
deriving Repr, DecidableEq

/-- Extraction `(entry.get("title") or "").strip()`. -/
def entryTitle (e : Entry) : String := pyStrip (e.title.getD "")

/-- Extraction `(entry.get("link") or "").strip()`. -/
def entryLink (e : Entry) : String := pyStrip (e.link.getD "")

/-- Extraction `(entry.get("description") or entry.get("summary") or "").strip()`. -/
def entryDesc (e : Entry) : String := pyStrip ((pyOr2 e.description e.summaryField).getD "")

/-- Extraction `entry.get("published") or entry.get("updated") or now-ISO`. -/
def entryPubDate (e : Entry) (now : String) : String :=
  (pyOr2 (pyOr2 e.published e.updated) (some now)).getD ""

/-- Result of processing one entry: the new store plus whether the two
enrichment effects (article-page fetch, summarizer call) happened. -/
structure StepResult where
  store : List Article
  fetched : Bool
  summarized : Bool
deriving Repr, DecidableEq

/-- The body of `process_feed`'s per-entry loop.  `fetchText` stands for
`fetch_article_text` and `xai` for `xai_summary` (its arguments in
source order: title, snippet, article_text, source, topic); both are
pure parameters of the model.  `now` is the current time as ISO text. -/
def processEntry (fetchText : String → String)
    (xai : String → String → String → String → String → Option String)
    (feedName now : String) (store : List Article) (e : Entry) : StepResult :=
  let title := entryTitle e
  let link := entryLink e
  let desc := entryDesc e
  let pubDate := entryPubDate e now
  if title = "" ∨ link = "" then ⟨store, false, false⟩
  else
    let normTitle := normalize_text title
    let normDesc := normalize_text desc
    match matchTopicKey normTitle normDesc with
    | none => ⟨store, false, false⟩
    | some matchedTopic =>
      let fp := make_fingerprint title matchedTopic
      if is_new_article link fp store = false then ⟨store, false, false⟩
      else
        if (AI_SUMMARY_TOPICS.map pyLower).contains (pyLower matchedTopic) then
          let articleText := fetchText link
          let s0 := xai title desc articleText feedName matchedTopic
          let summaryText :=
            if s0.getD "" ≠ "" then s0
            else some (fallback_summary title desc matchedTopic)
          ⟨save_article title link desc pubDate matchedTopic summaryText fp now store, true, true⟩
        else
          ⟨save_article title link desc pubDate matchedTopic none fp now store, false, false⟩

/-- Model of `process_feed` over a list of parsed entries, threading the store. -/
def processEntries (fetchText : String → String)
    (xai : String → String → String → String → String → Option String)
    (feedName now : String) (store : List Article) (entries : List Entry) : List Article :=
  entries.foldl (fun st e => (processEntry fetchText xai feedName now st e).store) store

/-! Section: app.py read side -/

/-- A row of the read queries (`SELECT title, link, topic, summary,
added_at`), each column nullable.  `added_at` is modelled in its text
form (the SQLite TEXT column / the already-stringified value). -/
structure Row where
  title : Option String
  link : Option String
  topic : Option String
  summaryCol : Option String
  added_at : Option String
deriving Repr, DecidableEq

/-- Model of `fetch_rows`: the body of its `try` block — the engine query — is
modelled as an `Except` outcome; the `except` branch returns `[]`, so
no failure propagates to the caller. -/
def fetch_rows (dbResult : Except String (List Row)) : List Row :=
  match dbResult with
  | .ok rows => rows
  | .error _ => []

/-- Model of `fetch_one`: on success, `row[0] if row else None` over the fetched
row (a list of column values); the `except` branch returns `None`. -/
def fetch_one (dbResult : Except String (Option (List String))) : Option String :=
  match dbResult with
  | .ok (some row) => row.head?
  | .ok none => none
  | .error _ => none

/-- The serialized story object of `/api/stories` and the HTML pages:
every field a plain string. -/
structure Story where
  title : String
  link : String
  topic : String
  topic_label : String
  summaryOut : String
  added_at : String
deriving Repr, DecidableEq

/-- Model of `serialize_story`: null fields become `""`; the topic label and the
display form of the summary are derived here, at read time. -/
def serialize_story (s : Row) : Story :=
  let ts := s.added_at
  let topic_raw := s.topic.getD ""
  let summary_raw := s.summaryCol.getD ""
  { title := s.title.getD ""
    link := s.link.getD ""
    topic := topic_raw
    topic_label := normalize_topic_label topic_raw
    summaryOut := normalize_summary_for_display summary_raw
    added_at := ts.getD "" }

/-! Section: concrete scenario constants of spec section 8 -/

/-- An article-page fetcher that always fails (`fetch_article_text`
returning `""`). -/
def fetchNone : String → String := fun _ => ""

/-- A summarizer that always fails (`xai_summary` returning `None`). -/
def xaiFail : String → String → String → String → String → Option String :=
  fun _ _ _ _ _ => none

/-- A summarizer that returns HTML-bearing text. -/
def xaiHtml : String → String → String → String → String → Option String :=
  fun _ _ _ _ _ => some "Developments:<br>Line two"

/-- The spec §8 scenario entry. -/
def entryTrump : Entry :=
  { title := some "Trump signs new executive order", link := some "http://a/x",
    description := some "", summaryField := none, published := some "2025-01-01",
    updated := none }

/-- The same story re-sighted under a different link. -/
def entryTrump2 : Entry :=
  { title := some "Trump signs new executive order", link := some "http://a/x?utm=1",
    description := some "", summaryField := none, published := some "2025-01-01",
    updated := none }

/-- An entry whose title and description hit no topic key. -/
def entryNoMatch : Entry :=
  { title := some "Sunny weather expected this weekend", link := some "http://a/y",
    description := some "Mild temperatures and light winds", summaryField := none,
    published := none, updated := none }

/-- The scenario fingerprint. -/
def fpTrump : String := make_fingerprint "Trump signs new executive order" "trump"

/-- The store after the first sighting of the scenario entry. -/
def storeAfterFirst : List Article :=
  processEntries fetchNone xaiFail "Feed" "2025-01-01T00:00:00+00:00" [] [entryTrump]

/-! Section: helper lemmas -/

/-- Number of stored rows carrying a given fingerprint. -/
def countFp (store : List Article) (f : String) : Nat :=
  (store.filter (fun a => a.fingerprint == f)).length

lemma is_new_article_true {link fp : String} {store : List Article}
    (h : is_new_article link fp store = true) :
    store.any (fun a => a.link == link) = false ∧
      store.any (fun a => a.fingerprint == fp) = false := by
  unfold is_new_article at h
  cases hl : store.any (fun a => a.link == link) with
  | false =>
    rw [hl] at h
    simp only [Bool.false_eq_true, if_false, Bool.not_eq_true'] at h
    exact ⟨rfl, h⟩
  | true =>
    rw [hl] at h
    simp at h

lemma string_len_append (a b : String) : (a ++ b).length = a.length + b.length := by
  cases a; cases b; simp [String.length, String.append]

lemma ne_empty_of_len {s : String} (h : s.length ≠ 0) : s ≠ "" :=
  fun he => h (he ▸ rfl)

lemma fallback_summary_ne_empty (t d k : String) : fallback_summary t d k ≠ "" := by
  apply ne_empty_of_len
  simp only [fallback_summary]
  split
  · simp only [string_len_append]
    have h1 : 0 < ("\n\nKey: Topic=" : String).length := by decide
    omega
  · simp only [string_len_append]
    have h1 : 0 < ("\nKey: Topic=" : String).length := by decide
    omega

lemma find_first_split {α : Type} (p : α → Bool) :
    ∀ (l : List α) (a : α), l.find? p = some a →
      p a = true ∧ ∃ l1 l2, l = l1 ++ a :: l2 ∧ ∀ b ∈ l1, p b = false
  | [], a, h => by simp [List.find?] at h
  | x :: xs, a, h => by
    cases hx : p x with
    | true =>
      rw [List.find?_cons_of_pos _ hx] at h
      cases h
      exact ⟨hx, [], xs, rfl, by intro b hb; cases hb⟩
    | false =>
      rw [List.find?_cons_of_neg _ (by simp [hx])] at h
      obtain ⟨hp, l1, l2, heq, hall⟩ := find_first_split p xs a h
      refine ⟨hp, x :: l1, l2, by rw [heq]; rfl, ?_⟩
      intro b hb
      cases hb with
      | head => exact hx
      | tail _ hb2 => exact hall b hb2

/-- Processing one entry either leaves the store unchanged or appends a
single article whose fingerprint was not present before and whose topic
is drawn from the vocabulary. -/
lemma processEntry_store_shape (fetchText : String → String)
    (xai : String → String → String → String → String → Option String)
    (feedName now : String) (store : List Article) (e : Entry) :
    (processEntry fetchText xai feedName now store e).store = store ∨
    ∃ art : Article, (processEntry fetchText xai feedName now store e).store = store ++ [art] ∧
      store.any (fun a => a.fingerprint == art.fingerprint) = false ∧ art.topic ∈ TOPICS := by
  simp only [processEntry]
  split
  · exact Or.inl rfl
  · split
    · exact Or.inl rfl
    · rename_i mt heq
      split
      · exact Or.inl rfl
      · rename_i hne
        have hnew : is_new_article (entryLink e)
            (make_fingerprint (entryTitle e) mt) store = true := by
          revert hne
          cases is_new_article (entryLink e) (make_fingerprint (entryTitle e) mt) store <;> simp
        obtain ⟨hlink, hfp⟩ := is_new_article_true hnew
        have hmem : mt ∈ TOPICS := List.mem_of_find?_eq_some heq
        have hsave : ∀ s : Option String,
            save_article (entryTitle e) (entryLink e) (entryDesc e) (entryPubDate e now)
              mt s (make_fingerprint (entryTitle e) mt) now store
            = store ++ [⟨entryTitle e, entryLink e, entryDesc e, entryPubDate e now,
                mt, s, now, make_fingerprint (entryTitle e) mt⟩] := by
          intro s
          unfold save_article
          rw [if_neg (by simp [hlink])]
        split
        · exact Or.inr ⟨_, hsave _, hfp, hmem⟩
        · exact Or.inr ⟨_, hsave _, hfp, hmem⟩

lemma processEntry_countFp (fetchText : String → String)
    (xai : String → String → String → String → String → Option String)
    (feedName now : String) (store : List Article) (e : Entry) (f : String) :
    countFp (processEntry fetchText xai feedName now store e).store f = countFp store f ∨
    (countFp store f = 0 ∧
      countFp (processEntry fetchText xai feedName now store e).store f = 1) := by
  rcases processEntry_store_shape fetchText xai feedName now store e with h | ⟨art, heq, hany, -⟩
  · left; rw [h]
  · cases hf : art.fingerprint == f with
    | true =>
      have hfe : art.fingerprint = f := beq_iff_eq.mp hf
      have h0 : countFp store f = 0 := by
        unfold countFp
        rw [List.length_eq_zero, List.filter_eq_nil_iff]
        intro a ha
        rw [← hfe]
        simp only [List.any_eq_false] at hany
        simpa using hany a ha
      right
      refine ⟨h0, ?_⟩
      unfold countFp at h0 ⊢
      rw [heq, List.filter_append, List.length_append, h0]
      simp [List.filter_cons, List.filter_nil, hf]
    | false =>
      left
      unfold countFp
      rw [heq, List.filter_append, List.length_append]
      simp [List.filter_cons, List.filter_nil, hf]

lemma processEntries_countFp (fetchText : String → String)
    (xai : String → String → String → String → String → Option String)
    (feedName now : String) :
    ∀ (entries : List Entry) (store : List Article) (f : String),
      countFp (processEntries fetchText xai feedName now store entries) f = countFp store f ∨
      (countFp store f = 0 ∧
        countFp (processEntries fetchText xai feedName now store entries) f = 1)
  | [], _, _ => Or.inl rfl
  | e :: es, store, f => by
    have hstep := processEntry_countFp fetchText xai feedName now store e f
    have hrest := processEntries_countFp fetchText xai feedName now es
      (processEntry fetchText xai feedName now store e).store f
    have hexp : processEntries fetchText xai feedName now store (e :: es)
        = processEntries fetchText xai feedName now
            (processEntry fetchText xai feedName now store e).store es := rfl
    rw [hexp]
    rcases hstep with h1 | ⟨h1a, h1b⟩
    · rcases hrest with h2 | ⟨h2a, h2b⟩
      · left; rw [h2, h1]
      · right; exact ⟨by rw [← h1]; exact h2a, h2b⟩
    · rcases hrest with h2 | ⟨h2a, h2b⟩
      · right; exact ⟨h1a, by rw [h2]; exact h1b⟩
      · right; exact ⟨h1a, h2b⟩

/-! Section: claim theorems -/

/-- Claim C1: pushing any sequence of candidate entries through the
pipeline (per-entry `is_new_article` gate followed by `save_article`)
preserves "at most one stored row per fingerprint"; moreover a
fingerprint already represented by exactly one row still has exactly
one row afterwards, in particular when a second candidate with the same
normalized title and topic but a different link is processed. -/
theorem pipeline_at_most_one_row_per_fingerprint
    (fetchText : String → String)
    (xai : String → String → String → String → String → Option String)
    (feedName now : String) (store : List Article) (entries : List Entry)
    (hinv : ∀ f, countFp store f ≤ 1) :
    (∀ f, countFp (processEntries fetchText xai feedName now store entries) f ≤ 1) ∧
    (∀ f, countFp store f = 1 →
      countFp (processEntries fetchText xai feedName now store entries) f = 1) := by
  constructor
  · intro f
    rcases processEntries_countFp fetchText xai feedName now entries store f with h | ⟨-, h1⟩
    · rw [h]; exact hinv f
    · rw [h1]
  · intro f hf
    rcases processEntries_countFp fetchText xai feedName now entries store f with h | ⟨h0, -⟩
    · rw [h]; exact hf
    · rw [hf] at h0; exact absurd h0 one_ne_zero

/-- Witness for C1: the spec §8 scenario.  After storing the Trump
entry, re-processing the same story under a different link leaves
exactly one row for its fingerprint. -/
theorem pipeline_at_most_one_row_per_fingerprint_witness :
    countFp storeAfterFirst fpTrump = 1 ∧
    countFp (processEntries fetchNone xaiFail "Feed" "T1" storeAfterFirst [entryTrump2])
      fpTrump = 1 := by
  have hinv : ∀ f, countFp storeAfterFirst f ≤ 1 := fun f =>
    le_trans (List.length_filter_le _ _) (by decide : storeAfterFirst.length ≤ 1)
  exact ⟨by decide,
    (pipeline_at_most_one_row_per_fingerprint fetchNone xaiFail "Feed" "T1"
      storeAfterFirst [entryTrump2] hinv).2 fpTrump (by decide)⟩

/-- Claim C2, counterexample: in the spec's own scenario the persisted
`topic` is the raw lowercase matching key `"trump"`, not the canonical
display label `"Trump"`. -/
theorem stored_topic_is_raw_key_cex :
    storeAfterFirst.map Article.topic = ["trump"] ∧ ("trump" : String) ≠ "Trump" := by
  decide

/-- Claim C2, amended: every article the pipeline persists carries the
raw matched topic key, a member of `TOPICS` (lowercase); the canonical
display label is derived only at read time by `normalize_topic_label`,
which maps the stored `"trump"` of the scenario row to `"Trump"`. -/
theorem stored_topic_matched_key_label_at_read :
    (∀ (fetchText : String → String)
       (xai : String → String → String → String → String → Option String)
       (feedName now : String) (store : List Article) (e : Entry) (a : Article),
       a ∈ (processEntry fetchText xai feedName now store e).store →
       a ∈ store ∨ a.topic ∈ TOPICS) ∧
    storeAfterFirst.map (fun a => normalize_topic_label a.topic) = ["Trump"] := by
  constructor
  · intro fetchText xai feedName now store e a ha
    rcases processEntry_store_shape fetchText xai feedName now store e with h | ⟨art, heq, -, hmem⟩
    · rw [h] at ha; exact Or.inl ha
    · rw [heq] at ha
      rcases List.mem_append.mp ha with h1 | h2
      · exact Or.inl h1
      · rw [List.mem_singleton.mp h2]; exact Or.inr hmem
  · decide

/-- The article stored for the spec scenario entry. -/
def articleTrump : Article :=
  ⟨"Trump signs new executive order", "http://a/x", "", "2025-01-01", "trump",
   some (fallback_summary "Trump signs new executive order" "" "trump"),
   "2025-01-01T00:00:00+00:00", fpTrump⟩

/-- Witness for the amended C2: the scenario article is in the processed
store and its topic is a vocabulary key. -/
theorem stored_topic_matched_key_label_at_read_witness :
    articleTrump ∈ (processEntry fetchNone xaiFail "Feed" "2025-01-01T00:00:00+00:00"
      [] entryTrump).store ∧
    (articleTrump ∈ ([] : List Article) ∨ articleTrump.topic ∈ TOPICS) :=
  ⟨by decide,
   stored_topic_matched_key_label_at_read.1 fetchNone xaiFail "Feed"
     "2025-01-01T00:00:00+00:00" [] entryTrump articleTrump (by decide)⟩

/-- Claim C3, counterexample: a summarizer answer containing an HTML
line break is passed to `save_article` verbatim — the stored summary
still contains `<br>` and no newline, so the value persisted is not
sanitized before storage. -/
theorem summary_stored_unsanitized_cex :
    (processEntries fetchNone xaiHtml "Feed" "T" [] [entryTrump]).map Article.summaryText
        = [some "Developments:<br>Line two"] ∧
    occursIn "<br>" "Developments:<br>Line two" = true ∧
    occursIn "\n" "Developments:<br>Line two" = false := by
  decide

/-- Claim C3, amended: the summary is stored exactly as produced; the
`<br>`-to-newline conversion happens at read time, in `serialize_story`
via `normalize_summary_for_display`, so the emitted summary has the
line-break markup replaced by literal newlines. -/
theorem summary_sanitized_at_read_time :
    (processEntries fetchNone xaiHtml "Feed" "T" [] [entryTrump]).map Article.summaryText
        = [some "Developments:<br>Line two"] ∧
    (serialize_story ⟨some "Trump signs new executive order", some "http://a/x",
        some "trump", some "Developments:<br>Line two", some "T"⟩).summaryOut
        = "Developments:\nLine two" ∧
    occursIn "<br>" "Developments:\nLine two" = false := by
  decide

/-- Claim C4: when the candidate's link or fingerprint is already in the
store (`is_new_article` answers false), processing that entry performs
no article-page fetch and no summarizer call, and leaves the store
unchanged — the duplicate check gates all enrichment work. -/
theorem dedup_gate_blocks_enrichment (fetchText : String → String)
    (xai : String → String → String → String → String → Option String)
    (feedName now : String) (store : List Article) (e : Entry) (k : String)
    (hmatch : matchTopicKey (normalize_text (entryTitle e))
      (normalize_text (entryDesc e)) = some k)
    (hdup : is_new_article (entryLink e) (make_fingerprint (entryTitle e) k) store = false) :
    processEntry fetchText xai feedName now store e = ⟨store, false, false⟩ := by
  simp only [processEntry, hmatch, hdup]
  split <;> rfl

/-- Witness for C4: re-sighting the scenario story under a new link is
caught by the fingerprint check and triggers no enrichment. -/
theorem dedup_gate_blocks_enrichment_witness :
    processEntry fetchNone xaiFail "Feed" "T1" storeAfterFirst entryTrump2
      = ⟨storeAfterFirst, false, false⟩ :=
  dedup_gate_blocks_enrichment fetchNone xaiFail "Feed" "T1" storeAfterFirst
    entryTrump2 "trump" (by decide) (by decide)

/-- Claim C5: `make_fingerprint` is deterministic, and the spec's
whitespace/case-invariance instance holds. -/
theorem fingerprint_deterministic_case_ws_invariant :
    (∀ t k : String, make_fingerprint t k = make_fingerprint t k) ∧
    make_fingerprint "Trump Wins Election" "trump"
      = make_fingerprint "  TRUMP   wins   election " "trump" :=
  ⟨fun _ _ => rfl, by decide⟩

/-- Claim C6, counterexample: the fingerprint is computed from the raw
title via `normalize_for_fingerprint`, which neither strips HTML tags
nor decodes entities, so a markup-carrying title and its `clean_text`
form fingerprint differently. -/
theorem fingerprint_differs_on_cleaned_title_cex :
    make_fingerprint "Trump <b>wins</b> the election" "trump"
      ≠ make_fingerprint (clean_text "Trump <b>wins</b> the election") "trump" := by
  decide

/-- Claim C6, amended: the fingerprint depends only on the
`normalize_for_fingerprint` image (strip, lowercase, zero-width removal,
whitespace collapse) of the title and topic — the single normalization
variant applied to every fingerprint — and not on `clean_text`. -/
theorem fingerprint_depends_only_on_fp_normalization (t t2 k k2 : String)
    (ht : normalize_for_fingerprint t = normalize_for_fingerprint t2)
    (hk : normalize_for_fingerprint k = normalize_for_fingerprint k2) :
    make_fingerprint t k = make_fingerprint t2 k2 := by
  unfold make_fingerprint
  rw [ht, hk]

/-- Witness for the amended C6: a doubled-space, re-cased title
fingerprints identically. -/
theorem fingerprint_depends_only_on_fp_normalization_witness :
    make_fingerprint "Trump   Wins" "trump" = make_fingerprint " trump wins " "trump" :=
  fingerprint_depends_only_on_fp_normalization "Trump   Wins" " trump wins "
    "trump" "trump" (by decide) rfl

/-- Claim C7: for a new candidate with an enrichment-eligible topic, a
summarizer that yields nothing does not block persistence — the row is
appended with the deterministic, non-empty local fallback summary. -/
theorem enrichment_failure_never_blocks_persistence (fetchText : String → String)
    (xai : String → String → String → String → String → Option String)
    (feedName now : String) (store : List Article) (e : Entry) (k : String)
    (hmatch : matchTopicKey (normalize_text (entryTitle e))
      (normalize_text (entryDesc e)) = some k)
    (hne : ¬(entryTitle e = "" ∨ entryLink e = ""))
    (hnew : is_new_article (entryLink e) (make_fingerprint (entryTitle e) k) store = true)
    (helig : (AI_SUMMARY_TOPICS.map pyLower).contains (pyLower k) = true)
    (hfail : (xai (entryTitle e) (entryDesc e) (fetchText (entryLink e)) feedName k).getD ""
      = "") :
    (processEntry fetchText xai feedName now store e).store
      = store ++ [⟨entryTitle e, entryLink e, entryDesc e, entryPubDate e now, k,
          some (fallback_summary (entryTitle e) (entryDesc e) k), now,
          make_fingerprint (entryTitle e) k⟩] ∧
    fallback_summary (entryTitle e) (entryDesc e) k ≠ "" := by
  constructor
  · simp only [processEntry, hmatch]
    rw [if_neg hne]
    rw [if_neg (by simp [hnew])]
    rw [if_pos helig]
    rw [if_neg (by simp [hfail])]
    show save_article (entryTitle e) (entryLink e) (entryDesc e) (entryPubDate e now) k
        (some (fallback_summary (entryTitle e) (entryDesc e) k))
        (make_fingerprint (entryTitle e) k) now store = _
    unfold save_article
    rw [if_neg (by simp [(is_new_article_true hnew).1])]
  · exact fallback_summary_ne_empty _ _ _

/-- Witness for C7: the scenario entry with an always-failing summarizer
is still persisted, with the fallback summary. -/
theorem enrichment_failure_never_blocks_persistence_witness :
    (processEntry fetchNone xaiFail "Feed" "T" [] entryTrump).store
      = [] ++ [⟨entryTitle entryTrump, entryLink entryTrump, entryDesc entryTrump,
          entryPubDate entryTrump "T", "trump",
          some (fallback_summary (entryTitle entryTrump) (entryDesc entryTrump) "trump"),
          "T", make_fingerprint (entryTitle entryTrump) "trump"⟩] ∧
    fallback_summary (entryTitle entryTrump) (entryDesc entryTrump) "trump" ≠ "" :=
  enrichment_failure_never_blocks_persistence fetchNone xaiFail "Feed" "T" [] entryTrump
    "trump" (by decide) (by decide) (by decide) (by decide) rfl

/-- Claim C8: the matched topic is the first vocabulary key (in `TOPICS`
order) hitting the normalized title or description — any key matched by
the candidate but listed earlier would have been chosen instead — and a
candidate hitting no key leaves the store untouched. -/
theorem first_match_wins_and_no_match_drop :
    (∀ (normTitle normDesc k : String), matchTopicKey normTitle normDesc = some k →
      topicHits normTitle normDesc k = true ∧
      ∃ l1 l2, TOPICS = l1 ++ k :: l2 ∧ ∀ k2 ∈ l1, topicHits normTitle normDesc k2 = false) ∧
    (∀ (fetchText : String → String)
       (xai : String → String → String → String → String → Option String)
       (feedName now : String) (store : List Article) (e : Entry),
       matchTopicKey (normalize_text (entryTitle e)) (normalize_text (entryDesc e)) = none →
       (processEntry fetchText xai feedName now store e).store = store) := by
  constructor
  · intro normTitle normDesc k h
    exact find_first_split _ TOPICS k h
  · intro fetchText xai feedName now store e h
    simp only [processEntry, h]
    split <;> rfl

/-- Witness for C8: a title hitting both `"trump"` and `"fbi"` matches
`"trump"` (listed first), and a no-match entry is not persisted. -/
theorem first_match_wins_and_no_match_drop_witness :
    (topicHits "trump sues fbi over files" "" "trump" = true ∧
      ∃ l1 l2, TOPICS = l1 ++ "trump" :: l2 ∧
        ∀ k2 ∈ l1, topicHits "trump sues fbi over files" "" k2 = false) ∧
    (processEntry fetchNone xaiFail "Feed" "T" [] entryNoMatch).store = [] :=
  ⟨first_match_wins_and_no_match_drop.1 "trump sues fbi over files" "" "trump" (by decide),
   first_match_wins_and_no_match_drop.2 fetchNone xaiFail "Feed" "T" [] entryNoMatch
     (by decide)⟩

/-- Claim C9: a failing storage read degrades to the empty result —
`fetch_rows` answers `[]` and `fetch_one` answers `none` for every
backend error, and both functions are total, so no exception reaches
the caller. -/
theorem read_failure_degrades_to_empty :
    ∀ err : String, fetch_rows (Except.error err) = [] ∧ fetch_one (Except.error err) = none :=
  fun _ => ⟨rfl, rfl⟩

/-- Claim C10: `serialize_story` emits a string in every field; a null
source column (title, link, topic, summary, added_at) becomes the empty
string, and a null topic also yields an empty topic label. -/
theorem serialize_story_never_null (r : Row) :
    (r.title = none → (serialize_story r).title = "") ∧
    (r.link = none → (serialize_story r).link = "") ∧
    (r.topic = none → (serialize_story r).topic = "" ∧ (serialize_story r).topic_label = "") ∧
    (r.summaryCol = none → (serialize_story r).summaryOut = "") ∧
    (r.added_at = none → (serialize_story r).added_at = "") := by
  refine ⟨fun h => ?_, fun h => ?_, fun h => ⟨?_, ?_⟩, fun h => ?_, fun h => ?_⟩
  · simp [serialize_story, h]
  · simp [serialize_story, h]
  · simp [serialize_story, h]
  · simp only [serialize_story, h]
    decide
  · simp only [serialize_story, h]
    decide
  · simp [serialize_story, h]

/-- Witness for C10: the all-null row serializes to all-empty strings. -/
theorem serialize_story_never_null_witness :
    ((serialize_story ⟨none, none, none, none, none⟩).title = "") ∧
    ((serialize_story ⟨none, none, none, none, none⟩).link = "") ∧
    ((serialize_story ⟨none, none, none, none, none⟩).topic = "" ∧
      (serialize_story ⟨none, none, none, none, none⟩).topic_label = "") ∧
    ((serialize_story ⟨none, none, none, none, none⟩).summaryOut = "") ∧
    ((serialize_story ⟨none, none, none, none, none⟩).added_at = "") :=
  ⟨(serialize_story_never_null _).1 rfl, (serialize_story_never_null _).2.1 rfl,
   (serialize_story_never_null _).2.2.1 rfl, (serialize_story_never_null _).2.2.2.1 rfl,
   (serialize_story_never_null _).2.2.2.2 rfl⟩

end NewsAgg
